import Mathlib

/-!
# Verification of the star-jar-counting repository

Shallow embedding of the two programs in `src/`:

* `src/main.py` — the static 3D visualizer (`GodelianJar3D`);
* `src/main_1.py` — the fullscreen pygame animator (`GodelianJar`).

Randomness is modelled by passing the sampled values in explicitly; a raw
`random.random()` draw is a rational in `[0, 1)`, and `random.uniform a b`
is modelled as `a + (b - a) * u` with `u ∈ [0, 1)`, matching CPython's
implementation of `uniform`.  Transcendental quantities that the Python code
computes with `math.sin` / `math.cos` (viewing-angle factors, the cosine of
a sampled angle) enter the embedding as explicit rational parameters standing
for the computed value; the arithmetic the program performs on those values
is embedded exactly.
-/

namespace StarJar

/-- Python `int(x)` applied to a real-valued expression: truncation toward
zero (floor for nonnegative arguments, ceiling for negative ones). -/
def pyInt (q : ℚ) : ℤ :=
  if 0 ≤ q then ⌊q⌋ else ⌈q⌉

/-- Python `random.uniform a b`, given the raw draw `u = random.random()`:
`a + (b - a) * u`. -/
def pyUniform (a b u : ℚ) : ℚ :=
  a + (b - a) * u

/-- Python `sum` over a list of booleans: the number of `True` entries. -/
def countTrue (l : List Bool) : ℕ :=
  (l.filter id).length

/-! ## Counting-attempt state (src/main_1.py)

The triple of fields `show_counting_attempt`, `counting_progress`,
`counting_error` of `GodelianJar`. -/

structure CountingState where
  show_counting_attempt : Bool
  counting_progress : ℚ
  counting_error : Bool
deriving Repr, DecidableEq

/-- The `K_SPACE` branch of `GodelianJar.run_animation` (src/main_1.py,
lines 543–548): flip `show_counting_attempt`; if it became true, zero the
progress and clear the error flag. -/
def spaceToggle (s : CountingState) : CountingState :=
  let s1 : CountingState := { s with show_counting_attempt := !s.show_counting_attempt }
  if s1.show_counting_attempt then
    { s1 with counting_progress := 0, counting_error := false }
  else
    s1

/-! ## Apparent-count recomputation (src/main_1.py, `update_apparent_count`)

`angle_factor` stands for the value of `math.sin(math.radians(rotation_angle * 2))`
computed by the code; the uncertainty is the integer sampled at construction. -/

/-- The Gödel factor of `update_apparent_count`: `1.0` when no counting
attempt is shown, `1.0 + (counting_progress / 100) * 0.5` otherwise. -/
def godelFactor (s : CountingState) : ℚ :=
  if s.show_counting_attempt then 1 + s.counting_progress / 100 * (1 / 2) else 1

/-- `count_variation = int(angle_factor * self.uncertainty * godel_factor)`. -/
def countVariation (angle_factor : ℚ) (uncertainty : ℕ) (s : CountingState) : ℤ :=
  pyInt (angle_factor * (uncertainty : ℚ) * godelFactor s)

/-- The apparent count immediately after `self.apparent_count = true_visible +
count_variation`, before the `max(1, ...)` clamp. -/
def apparentCountPre (vis : List Bool) (angle_factor : ℚ) (uncertainty : ℕ)
    (s : CountingState) : ℤ :=
  (countTrue vis : ℤ) + countVariation angle_factor uncertainty s

/-- The apparent count stored by `update_apparent_count`:
`max(1, true_visible + count_variation)`. -/
def updateApparentCount (vis : List Bool) (angle_factor : ℚ) (uncertainty : ℕ)
    (s : CountingState) : ℤ :=
  max 1 (apparentCountPre vis angle_factor uncertainty s)

/-! ## Counting-progress advancement (src/main_1.py, lines 579–587) -/

/-- One application of
`self.counting_progress = min(100, self.counting_progress + 0.5 * (1.0 - self.counting_progress / 200))`. -/
def progressStep (p : ℚ) : ℚ :=
  min 100 (p + 1 / 2 * (1 - p / 200))

/-- The per-frame progress update, including the guard
`if self.show_counting_attempt and self.counting_progress < 100`. -/
def frameProgress (attempt_shown : Bool) (p : ℚ) : ℚ :=
  if attempt_shown = true ∧ p < 100 then progressStep p else p

/-- Progress after `n` frames, starting from `0` with a counting attempt
active throughout. -/
def progressIter (n : ℕ) : ℚ :=
  (fun p => frameProgress true p)^[n] 0

/-! ## Rotation angle (src/main_1.py, lines 559–562) -/

/-- One frame's rotation update: `self.rotation_angle += 1` (the rotation
speed is the constant `1`), then reset to `0` if the result is `≥ 360`. -/
def rotationStep (a : ℕ) : ℕ :=
  let a1 := a + 1
  if 360 ≤ a1 then 0 else a1

/-- The rotation angle observed at the start of frame `n`, starting from the
initial value `0`. -/
def rotationIter (n : ℕ) : ℕ :=
  rotationStep^[n] 0

/-! ## Object population (src/main_1.py, `generate_objects`)

Per-object random draws of `generate_objects`.  `cosAngle` stands for the
value of `math.cos(angle)` for the sampled `angle`, and `radiusFactor` for
the value of `random.uniform(0, 0.95) ** 0.5`; both enter only the star's
position.  The remaining fields are the raw `[0, 1)` draws behind the other
`random` calls. -/

structure GenDraw where
  cosAngle : ℚ
  radiusFactor : ℚ
  depth : ℚ
  yU : ℚ
  sizeU : ℚ
  visU : ℚ
  flickerU : ℚ
deriving Repr, DecidableEq

/-- Star position: `effective_width = jar_width * (0.5 + 0.5 * (1 - |depth|) ** 2)`;
`x = jar_center_x + radius_factor * effective_width / 2 * cos(angle)`;
`y = jar_top + uniform(0.1, 0.9) * jar_height`. -/
def genStar (jar_center_x jar_width jar_height jar_top : ℚ) (d : GenDraw) : ℚ × ℚ :=
  let effective_width := jar_width * (1 / 2 + 1 / 2 * (1 - |d.depth|) ^ 2)
  (jar_center_x + d.radiusFactor * effective_width / 2 * d.cosAngle,
   jar_top + pyUniform (1 / 10) (9 / 10) d.yU * jar_height)

/-- Star size: `base_size = display_height * 0.005`;
`size = uniform(base_size, base_size * 2) * (1 - 0.5 * |depth|)`. -/
def genSize (display_height : ℚ) (d : GenDraw) : ℚ :=
  let base_size := display_height * (5 / 1000)
  pyUniform base_size (base_size * 2) d.sizeU * (1 - 1 / 2 * |d.depth|)

/-- Flicker probability: `random.uniform(0.02, 0.1)`. -/
def genFlicker (d : GenDraw) : ℚ :=
  pyUniform (1 / 50) (1 / 10) d.flickerU

/-- The geometry and population-size inputs that `generate_objects` reads from
the `GodelianJar` instance. -/
structure Config where
  num_objects : ℕ
  display_height : ℚ
  jar_center_x : ℚ
  jar_width : ℚ
  jar_height : ℚ
  jar_top : ℚ
deriving Repr, DecidableEq

/-- The six parallel per-object arrays built by `generate_objects`. -/
structure Population where
  stars : List (ℚ × ℚ)
  star_visibility : List Bool
  star_depths : List ℚ
  star_sizes : List ℚ
  star_flicker : List ℚ
  star_godel_status : List Bool
deriving Repr, DecidableEq

/-- `GodelianJar.generate_objects` (src/main_1.py, lines 119–167): rebuilds
all six parallel arrays from scratch, one entry per `i in range(num_objects)`.
Initial visibility is `random.random() > 0.1`; every 8th star
(`i % 8 == 0`) is a Gödel star. -/
def generateObjects (cfg : Config) (d : ℕ → GenDraw) : Population where
  stars := (List.range cfg.num_objects).map fun i =>
    genStar cfg.jar_center_x cfg.jar_width cfg.jar_height cfg.jar_top (d i)
  star_visibility := (List.range cfg.num_objects).map fun i =>
    decide ((1 / 10 : ℚ) < (d i).visU)
  star_depths := (List.range cfg.num_objects).map fun i => (d i).depth
  star_sizes := (List.range cfg.num_objects).map fun i =>
    genSize cfg.display_height (d i)
  star_flicker := (List.range cfg.num_objects).map fun i => genFlicker (d i)
  star_godel_status := (List.range cfg.num_objects).map fun i => decide (i % 8 = 0)

/-! ## Visibility update (src/main_1.py, `update_object_visibility`) -/

/-- The three `random.random()` draws the visibility update may make for one
object in one tick. -/
structure VisDraw where
  flickerRoll : ℚ
  countRoll : ℚ
  angleRoll : ℚ
deriving Repr, DecidableEq

/-- The body of the `for i in range(self.num_objects)` loop of
`update_object_visibility` for one object: flip on the object's own flicker
probability; Gödel stars also flip with probability 0.2 while a counting
attempt is shown and with probability 0.15 when the angle factor
(`|sin(rotation_angle in radians)|`, passed in as a value) exceeds 0.7. -/
def visStep (attempt_shown : Bool) (angle_factor : ℚ) (vis : Bool) (flicker : ℚ)
    (godel : Bool) (r : VisDraw) : Bool :=
  let v1 := if r.flickerRoll < flicker then !vis else vis
  if godel then
    let v2 := if attempt_shown = true ∧ r.countRoll < 1 / 5 then !v1 else v1
    if 7 / 10 < angle_factor ∧ r.angleRoll < 3 / 20 then !v2 else v2
  else
    v1

/-- `GodelianJar.update_object_visibility` (src/main_1.py, lines 169–187):
replaces the visibility flags in place, touching no other array. -/
def updateObjectVisibility (cfg : Config) (attempt_shown : Bool) (angle_factor : ℚ)
    (r : ℕ → VisDraw) (pop : Population) : Population :=
  { pop with
    star_visibility := (List.range cfg.num_objects).map fun i =>
      visStep attempt_shown angle_factor (pop.star_visibility.getD i false)
        (pop.star_flicker.getD i 0) (pop.star_godel_status.getD i false) (r i) }

/-! ## Reset event (src/main_1.py, lines 549–554) -/

/-- The simulation state the `K_r` handler touches. -/
structure AnimState where
  counting : CountingState
  pop : Population
deriving Repr, DecidableEq

/-- The `K_r` branch of `run_animation`: force the counting attempt off,
zero the progress, clear the error flag, and call `generate_objects`,
which rebuilds every per-object array from new random draws. -/
def resetEvent (cfg : Config) (d : ℕ → GenDraw) (_s : AnimState) : AnimState :=
  { counting := ⟨false, 0, false⟩, pop := generateObjects cfg d }

/-! ## Rotation export (src/main.py, `rotate_animation`) -/

/-- Python `range start stop step` for a positive step. -/
def pyRange (start stop step : ℕ) : List ℕ :=
  if step = 0 then []
  else (List.range ((stop - start + step - 1) / step)).map fun k => start + k * step

/-- The angles visited by `GodelianJar3D.rotate_animation`:
`range(0, 360, int(360 / num_frames))`.  For `num_frames` dividing 360 the
float division is exact, so `int` of it is plain natural division. -/
def exportAngles (num_frames : ℕ) : List ℕ :=
  pyRange 0 360 (360 / num_frames)

/-- The file name written for one frame: `f"jar_rotation_\x7bangle\x7d.png"`. -/
def frameFilename (angle : ℕ) : String :=
  "jar_rotation_" ++ toString angle ++ ".png"

/-- The ordered list of files `rotate_animation` writes. -/
def exportFiles (num_frames : ℕ) : List String :=
  (exportAngles num_frames).map frameFilename

/-! ## Static visualizer constructor and drag handler (src/main.py) -/

/-- The fields of `GodelianJar3D` relevant to the drag handler.  `uncertainty`
is an `Option`: `none` models the attribute never having been assigned
(`__init__` only sets it on the `num_objects is None` branch). -/
structure Jar3DState where
  num_objects : ℕ
  uncertainty : Option ℕ
deriving Repr, DecidableEq

/-- `GodelianJar3D.__init__` (src/main.py, lines 20–30): with no explicit
count, sample `num_objects` and `uncertainty` (the sampled values are passed
in); with an explicit count, set only `num_objects`. -/
def jar3DInit (num_objects : Option ℕ) (randCount randUnc : ℕ) : Jar3DState :=
  match num_objects with
  | none => { num_objects := randCount, uncertainty := some randUnc }
  | some n => { num_objects := n, uncertainty := none }

/-- The `on_rotate` handler registered by `visualize` (src/main.py,
lines 96–104): `apparent_count = self.num_objects + random.randint(-self.uncertainty,
self.uncertainty)`.  Reading the missing attribute raises `AttributeError`,
modelled as `none`; `r` is the sampled `randint` value. -/
def onRotateApparentCount (s : Jar3DState) (r : ℤ) : Option ℤ :=
  match s.uncertainty with
  | none => none
  | some _ => some ((s.num_objects : ℤ) + r)

end StarJar

namespace StarJar

/-! ### Basic lemmas about the helpers -/

/-- `getD` on an array built by mapping over `List.range`. -/
theorem getD_map_range {α : Type} (f : ℕ → α) (dflt : α) {i n : ℕ} (h : i < n) :
    ((List.range n).map f).getD i dflt = f i := by
  rw [List.getD_eq_getElem?_getD, List.getElem?_map, List.getElem?_range h]
  rfl

theorem pyInt_of_nonneg {q : ℚ} (h : 0 ≤ q) : pyInt q = ⌊q⌋ := by
  simp [pyInt, h]

theorem progressStep_le (p : ℚ) : progressStep p ≤ 100 :=
  min_le_left _ _

theorem progressStep_gt {p : ℚ} (h1 : p < 100) : p < progressStep p := by
  have hinc : 0 < 1 / 2 * (1 - p / 200) := by nlinarith
  exact lt_min h1 (by linarith)

theorem progressStep_nonneg {p : ℚ} (h0 : 0 ≤ p) : 0 ≤ progressStep p := by
  have h2 : (0 : ℚ) ≤ 100 := by norm_num
  rcases le_or_lt 100 p with h | h
  · exact le_min h2 (by nlinarith)
  · have hinc : 0 < 1 / 2 * (1 - p / 200) := by nlinarith
    exact le_min h2 (by linarith)

theorem progressIter_succ (n : ℕ) :
    progressIter (n + 1) = frameProgress true (progressIter n) := by
  simp [progressIter, Function.iterate_succ_apply']

theorem progressIter_bounds (n : ℕ) : 0 ≤ progressIter n ∧ progressIter n ≤ 100 := by
  induction n with
  | zero => norm_num [progressIter]
  | succ n ih =>
    rw [progressIter_succ]
    rcases ih with ⟨ih0, ih1⟩
    by_cases h : progressIter n < 100
    · rw [frameProgress, if_pos ⟨rfl, h⟩]
      exact ⟨progressStep_nonneg ih0, progressStep_le _⟩
    · rw [frameProgress, if_neg (by tauto)]
      exact ⟨ih0, ih1⟩

theorem progressStep_quarter {p : ℚ} (h1 : p ≤ 100) :
    min 100 (p + 1 / 4) ≤ progressStep p := by
  have : p + 1 / 4 ≤ p + 1 / 2 * (1 - p / 200) := by nlinarith
  exact min_le_min (le_refl _) this

theorem progressIter_lower (n : ℕ) : min 100 ((n : ℚ) / 4) ≤ progressIter n := by
  induction n with
  | zero => norm_num [progressIter]
  | succ n ih =>
    rw [progressIter_succ]
    rcases progressIter_bounds n with ⟨ih0, ih1⟩
    by_cases h : progressIter n < 100
    · rw [frameProgress, if_pos ⟨rfl, h⟩]
      refine le_trans ?_ (progressStep_quarter ih1)
      push_cast
      have hcast : ((n : ℚ) + 1) / 4 = (n : ℚ) / 4 + 1 / 4 := by ring
      rw [hcast]
      rcases le_or_lt 100 ((n : ℚ) / 4) with hc | hc
      · have hge : (100 : ℚ) ≤ progressIter n := by
          have hmin : min (100 : ℚ) ((n : ℚ) / 4) = 100 := min_eq_left hc
          rw [hmin] at ih
          exact ih
        exact absurd hge (not_le.mpr h)
      · have hle : (n : ℚ) / 4 ≤ progressIter n := by
          have hmin : min (100 : ℚ) ((n : ℚ) / 4) = (n : ℚ) / 4 := min_eq_right hc.le
          rw [hmin] at ih
          exact ih
        exact le_min (min_le_left _ _) (le_trans (min_le_right _ _) (by linarith))
    · rw [frameProgress, if_neg (by tauto)]
      have h100 : progressIter n = 100 := le_antisymm ih1 (not_lt.mp h)
      rw [h100]
      exact min_le_left _ _

theorem progressIter_saturates : progressIter 400 = 100 := by
  have h1 := progressIter_lower 400
  have h2 := (progressIter_bounds 400).2
  have h3 : (100 : ℚ) ≤ min (100 : ℚ) (((400 : ℕ) : ℚ) / 4) := le_min le_rfl (by norm_num)
  linarith [le_trans h3 h1]

theorem visStep_decides (cfg : Config) (attempt_shown : Bool) (af : ℚ)
    (r : ℕ → VisDraw) (pop : Population) {i : ℕ} (hi : i < cfg.num_objects) :
    (updateObjectVisibility cfg attempt_shown af r pop).star_visibility.getD i false =
      visStep attempt_shown af (pop.star_visibility.getD i false)
        (pop.star_flicker.getD i 0) (pop.star_godel_status.getD i false) (r i) := by
  unfold updateObjectVisibility
  exact getD_map_range _ _ hi

theorem rotationIter_mod (n : ℕ) : rotationIter n = n % 360 := by
  induction n with
  | zero => simp [rotationIter]
  | succ n ih =>
    have : rotationIter (n + 1) = rotationStep (rotationIter n) := by
      simp [rotationIter, Function.iterate_succ_apply']
    rw [this, ih, rotationStep]
    have hlt : n % 360 < 360 := Nat.mod_lt _ (by norm_num)
    by_cases h : 360 ≤ n % 360 + 1
    · have h359 : n % 360 = 359 := by omega
      simp only [if_pos h]
      omega
    · simp only [if_neg h]
      omega

/-! ## Claim theorems -/

/-- C1 (counterexample): at visibility `[true]`, angle factor `-1/4`,
uncertainty `10` and no counting attempt, the pre-clamp apparent count
computed by `update_apparent_count` is `1 + int(-5/2) = -1`, not the
`1 + floor(-5/2) = -2` the claim's `floor` formula demands. -/
theorem C1_trunc_ne_floor :
    apparentCountPre [true] (-(1 / 4)) 10 ⟨false, 0, false⟩ ≠
      (countTrue [true] : ℤ) +
        ⌊(-(1 / 4) : ℚ) * ((10 : ℕ) : ℚ) * godelFactor ⟨false, 0, false⟩⌋ := by
  have hg : godelFactor ⟨false, 0, false⟩ = 1 := by simp [godelFactor]
  have hprod : (-(1 / 4) : ℚ) * ((10 : ℕ) : ℚ) * godelFactor ⟨false, 0, false⟩ =
      -(5 / 2) := by rw [hg]; norm_num
  have hfloor : ⌊(-(5 / 2) : ℚ)⌋ = -3 := by norm_num
  have hceil : ⌈(-(5 / 2) : ℚ)⌉ = -2 := by
    rw [Int.ceil_neg]
    norm_num
  have hc : countTrue [true] = 1 := rfl
  simp only [apparentCountPre, countVariation, pyInt, hprod, hfloor, hceil, hc]
  norm_num

/-- C1 (amended): `update_apparent_count` sets the pre-clamp apparent count to
the number of visible objects plus `int(sin(2 × angle) × uncertainty ×
godel_factor)` where `int` truncates toward zero; the Gödel factor is `1`
while no counting attempt is active and `1 + (progress/100) × 0.5` while
active; truncation agrees with `floor` whenever the product is nonnegative. -/
theorem C1_apparent_count_formula (vis : List Bool) (af : ℚ) (u : ℕ) (s : CountingState) :
    apparentCountPre vis af u s =
      (countTrue vis : ℤ) + pyInt (af * (u : ℚ) * godelFactor s) ∧
    (s.show_counting_attempt = false → godelFactor s = 1) ∧
    (s.show_counting_attempt = true →
      godelFactor s = 1 + s.counting_progress / 100 * (1 / 2)) ∧
    (0 ≤ af * (u : ℚ) * godelFactor s →
      pyInt (af * (u : ℚ) * godelFactor s) = ⌊af * (u : ℚ) * godelFactor s⌋) := by
  refine ⟨rfl, fun h => ?_, fun h => ?_, fun h => pyInt_of_nonneg h⟩ <;>
    simp [godelFactor, h]

/-- C1 (witness for the amended theorem): concrete instantiation at
visibility `[true]`, angle factor `1/2`, uncertainty `10`, counting inactive. -/
theorem C1_apparent_count_formula_witness :
    godelFactor ⟨false, 0, false⟩ = 1 ∧
    pyInt ((1 / 2 : ℚ) * ((10 : ℕ) : ℚ) * godelFactor ⟨false, 0, false⟩) =
      ⌊(1 / 2 : ℚ) * ((10 : ℕ) : ℚ) * godelFactor ⟨false, 0, false⟩⌋ := by
  have h := C1_apparent_count_formula [true] (1 / 2) 10 ⟨false, 0, false⟩
  refine ⟨h.2.1 rfl, h.2.2.2 ?_⟩
  have hg : godelFactor ⟨false, 0, false⟩ = 1 := by simp [godelFactor]
  rw [hg]
  norm_num

/-- C2: the apparent count stored by `update_apparent_count` is at least 1,
for every visibility list, angle factor, uncertainty and counting state. -/
theorem C2_apparent_count_at_least_one (vis : List Bool) (af : ℚ) (u : ℕ)
    (s : CountingState) : 1 ≤ updateApparentCount vis af u s :=
  le_max_left _ _

/-- C3 (counterexample): toggling the Space command while a counting attempt
is active with progress 42 clears the active flag but leaves the stored
progress at 42, not 0, refuting the claim that toggle-off resets progress. -/
theorem C3_toggle_off_keeps_progress :
    (spaceToggle ⟨true, 42, false⟩).show_counting_attempt = false ∧
    (spaceToggle ⟨true, 42, false⟩).counting_progress ≠ 0 := by
  refine ⟨rfl, ?_⟩
  show (42 : ℚ) ≠ 0
  norm_num

/-- C3 (amended): the Space toggle from Active merely clears the active flag,
leaving progress and error flag at their previous values; progress is zeroed
(and the error flag cleared) on the toggle that activates an attempt. -/
theorem C3_space_toggle_semantics (s : CountingState) :
    (s.show_counting_attempt = true →
      spaceToggle s = ⟨false, s.counting_progress, s.counting_error⟩) ∧
    (s.show_counting_attempt = false → spaceToggle s = ⟨true, 0, false⟩) := by
  obtain ⟨sh, p, e⟩ := s
  constructor <;> intro h <;> subst h <;> simp [spaceToggle]

/-- C3 (witness for the amended theorem): toggling off from
`⟨active, 7, error⟩` yields `⟨inactive, 7, error⟩`. -/
theorem C3_space_toggle_semantics_witness :
    spaceToggle ⟨true, 7, true⟩ = ⟨false, 7, true⟩ :=
  (C3_space_toggle_semantics ⟨true, 7, true⟩).1 rfl

/-- C4: with a counting attempt active throughout and starting from progress
0, the per-frame update keeps the stored progress in `[0, 100]`, strictly
increases it whenever it is below 100, and saturates it at exactly 100 (by
frame 400 the stored value is exactly 100). -/
theorem C4_progress_monotone_capped :
    (∀ n : ℕ, 0 ≤ progressIter n ∧ progressIter n ≤ 100 ∧
      (progressIter n < 100 → progressIter n < progressIter (n + 1))) ∧
    progressIter 400 = 100 := by
  refine ⟨fun n => ⟨(progressIter_bounds n).1, (progressIter_bounds n).2, fun h => ?_⟩,
    progressIter_saturates⟩
  rw [progressIter_succ, frameProgress, if_pos ⟨rfl, h⟩]
  exact progressStep_gt h

/-- C4 (witness): the first step strictly increases progress, and frame 400
has saturated at exactly 100. -/
theorem C4_progress_monotone_capped_witness :
    progressIter 0 < progressIter 1 ∧ progressIter 400 = 100 := by
  have h := C4_progress_monotone_capped
  exact ⟨(h.1 0).2.2 (by norm_num [progressIter]), h.2⟩

/-- C5: the R-key reset, invoked while a counting attempt is active with
positive progress and a latched error, yields the inactive/zero/cleared
counting state and a population rebuilt wholesale by `generate_objects` —
independent of the previous object arrays — with all six parallel arrays of
length `num_objects`. -/
theorem C5_reset_semantics (cfg : Config) (d : ℕ → GenDraw) (s : AnimState)
    (_hactive : s.counting.show_counting_attempt = true)
    (_hprog : 0 < s.counting.counting_progress)
    (_herr : s.counting.counting_error = true) :
    (resetEvent cfg d s).counting = ⟨false, 0, false⟩ ∧
    (resetEvent cfg d s).pop = generateObjects cfg d ∧
    (∀ t : AnimState, (resetEvent cfg d t).pop = (resetEvent cfg d s).pop) ∧
    (resetEvent cfg d s).pop.stars.length = cfg.num_objects ∧
    (resetEvent cfg d s).pop.star_visibility.length = cfg.num_objects ∧
    (resetEvent cfg d s).pop.star_depths.length = cfg.num_objects ∧
    (resetEvent cfg d s).pop.star_sizes.length = cfg.num_objects ∧
    (resetEvent cfg d s).pop.star_flicker.length = cfg.num_objects ∧
    (resetEvent cfg d s).pop.star_godel_status.length = cfg.num_objects := by
  refine ⟨rfl, rfl, fun t => rfl, ?_, ?_, ?_, ?_, ?_, ?_⟩ <;>
    simp [resetEvent, generateObjects]

/-- C5 (witness): concrete reset from an active, progressed, errored state
over an empty previous population. -/
theorem C5_reset_semantics_witness :
    (resetEvent ⟨1, 0, 0, 0, 0, 0⟩ (fun _ => ⟨0, 0, 0, 0, 0, 0, 0⟩)
        ⟨⟨true, 5, true⟩, ⟨[], [], [], [], [], []⟩⟩).counting = ⟨false, 0, false⟩ ∧
    (resetEvent ⟨1, 0, 0, 0, 0, 0⟩ (fun _ => ⟨0, 0, 0, 0, 0, 0, 0⟩)
        ⟨⟨true, 5, true⟩, ⟨[], [], [], [], [], []⟩⟩).pop.star_visibility.length = 1 := by
  have h := C5_reset_semantics ⟨1, 0, 0, 0, 0, 0⟩ (fun _ => ⟨0, 0, 0, 0, 0, 0, 0⟩)
    ⟨⟨true, 5, true⟩, ⟨[], [], [], [], [], []⟩⟩ rfl (by norm_num) rfl
  exact ⟨h.1, h.2.2.2.2.1⟩

/-- C6: provided every raw flicker draw lies in `[0, 1)` (the range of
`random.random()`), each generated object's flicker probability lies in
`[0.02, 0.1)`, and the Gödel flag is set exactly at indices divisible by 8. -/
theorem C6_flicker_bounds_godel_flags (cfg : Config) (d : ℕ → GenDraw)
    (hdraw : ∀ i, 0 ≤ (d i).flickerU ∧ (d i).flickerU < 1) :
    ∀ i, i < cfg.num_objects →
      (1 / 50 ≤ (generateObjects cfg d).star_flicker.getD i 0 ∧
        (generateObjects cfg d).star_flicker.getD i 0 < 1 / 10) ∧
      ((generateObjects cfg d).star_godel_status.getD i false = true ↔ i % 8 = 0) := by
  intro i hi
  rcases hdraw i with ⟨h0, h1⟩
  have hf : (generateObjects cfg d).star_flicker.getD i 0 = genFlicker (d i) := by
    unfold generateObjects
    exact getD_map_range _ _ hi
  have hg : (generateObjects cfg d).star_godel_status.getD i false =
      decide (i % 8 = 0) := by
    unfold generateObjects
    exact getD_map_range _ _ hi
  refine ⟨?_, ?_⟩
  · rw [hf]
    unfold genFlicker pyUniform
    constructor <;> nlinarith
  · rw [hg]
    simp

/-- C6 (witness): with nine objects and all raw draws 0, object 8's flicker
probability is in bounds and its Gödel flag is set. -/
theorem C6_flicker_bounds_godel_flags_witness :
    (1 / 50 ≤ (generateObjects ⟨9, 0, 0, 0, 0, 0⟩
        (fun _ => ⟨0, 0, 0, 0, 0, 0, 0⟩)).star_flicker.getD 8 0 ∧
      (generateObjects ⟨9, 0, 0, 0, 0, 0⟩
        (fun _ => ⟨0, 0, 0, 0, 0, 0, 0⟩)).star_flicker.getD 8 0 < 1 / 10) ∧
    ((generateObjects ⟨9, 0, 0, 0, 0, 0⟩
        (fun _ => ⟨0, 0, 0, 0, 0, 0, 0⟩)).star_godel_status.getD 8 false = true ↔
      8 % 8 = 0) :=
  C6_flicker_bounds_godel_flags ⟨9, 0, 0, 0, 0, 0⟩ (fun _ => ⟨0, 0, 0, 0, 0, 0, 0⟩)
    (fun _ => ⟨le_rfl, one_pos⟩) 8 (by norm_num)

/-- C7: after generation all six parallel arrays have length `num_objects`;
the visibility update rebuilds only the visibility array (again of length
`num_objects`), leaves the other five arrays untouched, and the new
visibility at index `i` is computed from the old index-`i` entries of the
visibility, flicker and Gödel arrays — so index `i` keeps denoting the same
logical object. -/
theorem C7_parallel_arrays_consistent (cfg : Config) (d : ℕ → GenDraw)
    (attempt_shown : Bool) (af : ℚ) (r : ℕ → VisDraw) (pop : Population) :
    ((generateObjects cfg d).stars.length = cfg.num_objects ∧
      (generateObjects cfg d).star_visibility.length = cfg.num_objects ∧
      (generateObjects cfg d).star_depths.length = cfg.num_objects ∧
      (generateObjects cfg d).star_sizes.length = cfg.num_objects ∧
      (generateObjects cfg d).star_flicker.length = cfg.num_objects ∧
      (generateObjects cfg d).star_godel_status.length = cfg.num_objects) ∧
    ((updateObjectVisibility cfg attempt_shown af r pop).star_visibility.length =
        cfg.num_objects ∧
      (updateObjectVisibility cfg attempt_shown af r pop).stars = pop.stars ∧
      (updateObjectVisibility cfg attempt_shown af r pop).star_depths = pop.star_depths ∧
      (updateObjectVisibility cfg attempt_shown af r pop).star_sizes = pop.star_sizes ∧
      (updateObjectVisibility cfg attempt_shown af r pop).star_flicker = pop.star_flicker ∧
      (updateObjectVisibility cfg attempt_shown af r pop).star_godel_status =
        pop.star_godel_status) ∧
    (∀ i, i < cfg.num_objects →
      (updateObjectVisibility cfg attempt_shown af r pop).star_visibility.getD i false =
        visStep attempt_shown af (pop.star_visibility.getD i false)
          (pop.star_flicker.getD i 0) (pop.star_godel_status.getD i false) (r i)) := by
  refine ⟨⟨?_, ?_, ?_, ?_, ?_, ?_⟩, ⟨?_, rfl, rfl, rfl, rfl, rfl⟩,
    fun i hi => visStep_decides cfg attempt_shown af r pop hi⟩ <;>
    simp [generateObjects, updateObjectVisibility]

/-- C7 (witness): concrete instantiation reading back the updated visibility
of object 0 out of a two-object population. -/
theorem C7_parallel_arrays_consistent_witness :
    (updateObjectVisibility ⟨2, 0, 0, 0, 0, 0⟩ false 0 (fun _ => ⟨1, 1, 1⟩)
        ⟨[], [true, false], [], [], [0, 0], [false, false]⟩).star_visibility.getD 0 false =
      visStep false 0 true 0 false ⟨1, 1, 1⟩ :=
  (C7_parallel_arrays_consistent ⟨2, 0, 0, 0, 0, 0⟩ (fun _ => ⟨0, 0, 0, 0, 0, 0, 0⟩)
    false 0 (fun _ => ⟨1, 1, 1⟩)
    ⟨[], [true, false], [], [], [0, 0], [false, false]⟩).2.2 0 (by decide)

/-- C8: `rotate_animation` with `num_frames = 36` visits exactly the angles
0, 10, ..., 350 in order, writes exactly 36 files named
`jar_rotation_<angle>.png`, and writes no file for angle 360. -/
theorem C8_export_frame_naming :
    exportAngles 36 = [0, 10, 20, 30, 40, 50, 60, 70, 80, 90, 100, 110, 120, 130,
      140, 150, 160, 170, 180, 190, 200, 210, 220, 230, 240, 250, 260, 270, 280,
      290, 300, 310, 320, 330, 340, 350] ∧
    (exportFiles 36).length = 36 ∧
    exportFiles 36 = (exportAngles 36).map frameFilename ∧
    (360 : ℕ) ∉ exportAngles 36 ∧
    frameFilename 360 ∉ exportFiles 36 := by
  refine ⟨by decide, by decide, rfl, by decide, by decide⟩

/-- C9: the fullscreen animator's rotation angle, started at 0 and advanced
by 1 per frame with reset at ≥ 360, equals `n % 360` at the start of frame
`n`, is always in `[0, 360)`, returns to exactly 0 after 360 increments, and
a single step leaves the angle unwrapped whenever the incremented value is
still below 360. -/
theorem C9_rotation_wrap :
    (∀ n : ℕ, rotationIter n = n % 360 ∧ rotationIter n < 360) ∧
    rotationIter 0 = 0 ∧ rotationIter 360 = 0 ∧
    (∀ a : ℕ, a + 1 < 360 → rotationStep a = a + 1) ∧
    (∀ a : ℕ, 360 ≤ a + 1 → rotationStep a = 0) := by
  refine ⟨fun n => ⟨rotationIter_mod n, ?_⟩, rfl, ?_, fun a ha => ?_, fun a ha => ?_⟩
  · rw [rotationIter_mod]
    exact Nat.mod_lt _ (by norm_num)
  · rw [rotationIter_mod]
  · have hn : ¬ 360 ≤ a + 1 := by omega
    simp [rotationStep, hn]
  · simp [rotationStep, ha]

/-- C9 (witness): one unwrapped step at angle 5, and the wrap back to 0 at
frame 360. -/
theorem C9_rotation_wrap_witness :
    rotationStep 5 = 6 ∧ rotationIter 360 = 0 :=
  ⟨C9_rotation_wrap.2.2.2.1 5 (by decide), C9_rotation_wrap.2.2.1⟩

/-- C10: constructing the static visualizer with an explicit count leaves the
uncertainty attribute unset, so the drag handler's apparent-count computation
fails (`none`); with no explicit count the attribute is set and the handler
produces `num_objects + r` for the sampled offset `r`. -/
theorem C10_explicit_count_drag_unsafe (n randCount randUnc : ℕ) (r : ℤ) :
    (jar3DInit (some n) randCount randUnc).uncertainty = none ∧
    onRotateApparentCount (jar3DInit (some n) randCount randUnc) r = none ∧
    (jar3DInit none randCount randUnc).uncertainty = some randUnc ∧
    onRotateApparentCount (jar3DInit none randCount randUnc) r =
      some ((randCount : ℤ) + r) :=
  ⟨rfl, rfl, rfl, rfl⟩

end StarJar
